import Mathlib

/-!
Verification of the dispatch-ai buffering-and-triage pipeline
(`backend/app/main.py`, `backend/app/services/orchestrator.py`,
`backend/app/services/compression.py`, `backend/app/agents/*.py`).

The Python code is shallowly embedded: each dict-shaped value becomes a
structure of `Option` fields (a missing key is `none`, matching Python
`dict.get`), the per-camera maps of `ConnectionManager` become functions
`String → Option _`, wall-clock instants become natural numbers counting
milliseconds since the epoch, and each external call (the Gemini client,
the compression HTTP endpoint, a websocket send) is replaced by an explicit
outcome value supplied as a parameter.
-/

namespace DispatchAI

/-- One entry of `manager.text_buffers[camera_id]`: the dict
`{"text": description, "timestamp": timestamp}` appended in
`camera_websocket` (main.py lines 186-189). -/
structure Fragment where
  text : String
  timestamp : String
deriving DecidableEq

/-- Abstract websocket handle. -/
abbrev Conn := Nat

/-- The three per-camera dicts of `ConnectionManager` (main.py lines 92-95):
`camera_connections`, `text_buffers`, `buffer_start_times`.  Each Python
dict is embedded as a function from camera id to an optional value; a key
is present exactly when the function returns `some`.  The dispatcher list
is modelled separately (see `broadcast_to_dispatchers`), since no claim ties
it to these maps. -/
structure CamMaps where
  camera_connections : String → Option Conn
  text_buffers : String → Option (List Fragment)
  buffer_start_times : String → Option Nat

/-- The empty `ConnectionManager` state (main.py `__init__`). -/
def CamMaps.init : CamMaps :=
  { camera_connections := fun _ => none
  , text_buffers := fun _ => none
  , buffer_start_times := fun _ => none }

/-- `connect_camera` (main.py lines 97-101), restricted to the three
per-camera maps: stores the websocket, a fresh empty buffer, and the
current time as window start.  The dispatcher notification it also sends
touches only the dispatcher list. -/
def connect_camera (st : CamMaps) (cid : String) (ws : Conn) (now : Nat) : CamMaps :=
  { camera_connections := fun k => if k = cid then some ws else st.camera_connections k
  , text_buffers := fun k => if k = cid then some [] else st.text_buffers k
  , buffer_start_times := fun k => if k = cid then some now else st.buffer_start_times k }

/-- `disconnect_camera` (main.py lines 121-127): deletes the camera id from
each of the three dicts when present.  A conditional delete is pointwise
the same as setting the key to `none`. -/
def disconnect_camera (st : CamMaps) (cid : String) : CamMaps :=
  { camera_connections := fun k => if k = cid then none else st.camera_connections k
  , text_buffers := fun k => if k = cid then none else st.text_buffers k
  , buffer_start_times := fun k => if k = cid then none else st.buffer_start_times k }

/-- The `"overshoot_result"` branch of `camera_websocket` (main.py line
186): `manager.text_buffers[camera_id].append({...})`.  When the key is
absent Python would raise `KeyError` (caught by the handler); here the
state is returned unchanged, and every theorem using this definition
supplies a state in which the key is present. -/
def appendFragment (st : CamMaps) (cid : String) (f : Fragment) : CamMaps :=
  { st with text_buffers := fun k =>
      if k = cid then (st.text_buffers cid).map (fun l => l ++ [f])
      else st.text_buffers k }

/-- `"\n".join([item["text"] for item in buffer])` (main.py line 272). -/
def rawText (buffer : List Fragment) : String :=
  String.intercalate "\n" (buffer.map Fragment.text)

/-- The buffer-consuming prefix of `process_buffer` (main.py lines 261-269):
read `text_buffers.get(camera_id, [])`; if empty (key absent or empty
list), return without touching anything; otherwise swap in a fresh empty
buffer, reset the window start to `now`, and hand back the flushed
fragments. -/
def flushBuffer (st : CamMaps) (cid : String) (now : Nat) :
    Option (List Fragment × CamMaps) :=
  match (st.text_buffers cid).getD [] with
  | [] => none
  | f :: fs =>
      some (f :: fs,
        { st with
          text_buffers := fun k => if k = cid then some [] else st.text_buffers k
          , buffer_start_times := fun k =>
              if k = cid then some now else st.buffer_start_times k })

/-- Append a whole arrival-ordered sequence of fragments. -/
def appendAll (st : CamMaps) (cid : String) (fs : List Fragment) : CamMaps :=
  fs.foldl (fun s f => appendFragment s cid f) st

theorem appendAll_buffer (cid : String) (fs : List Fragment) :
    ∀ st : CamMaps, ∀ l : List Fragment, st.text_buffers cid = some l →
      (appendAll st cid fs).text_buffers cid = some (l ++ fs) := by
  induction fs with
  | nil => intro st l h; simpa [appendAll] using h
  | cons f fs ih =>
      intro st l h
      have hstep : (appendFragment st cid f).text_buffers cid = some (l ++ [f]) := by
        simp [appendFragment, h]
      have := ih (appendFragment st cid f) (l ++ [f]) hstep
      simpa [appendAll, List.foldl_cons, List.append_assoc] using this

theorem appendAll_start (cid : String) (fs : List Fragment) :
    ∀ st : CamMaps, (appendAll st cid fs).buffer_start_times cid
      = st.buffer_start_times cid := by
  induction fs with
  | nil => intro st; simp [appendAll]
  | cons f fs ih =>
      intro st
      simpa [appendAll, List.foldl_cons, appendFragment] using
        ih (appendFragment st cid f)

/-- C1: for every non-empty arrival-ordered sequence of fragments appended
to one camera's buffer, a flush consumes exactly those fragments in arrival
order — so `raw_text` is their texts joined one per line in arrival
order — leaves that camera's buffer empty, and resets its window start to
the current time. -/
theorem buffer_flush_order (cid : String) (ws : Conn) (t0 now : Nat)
    (fs : List Fragment) (hne : fs ≠ []) :
    let st := appendAll (connect_camera CamMaps.init cid ws t0) cid fs
    (flushBuffer st cid now).map Prod.fst = some fs ∧
    (flushBuffer st cid now).map (fun p => rawText p.1)
      = some (String.intercalate "\n" (fs.map Fragment.text)) ∧
    (flushBuffer st cid now).map (fun p => p.2.text_buffers cid)
      = some (some []) ∧
    (flushBuffer st cid now).map (fun p => p.2.buffer_start_times cid)
      = some (some now) := by
  intro st
  have hbuf : st.text_buffers cid = some fs := by
    have hconn : (connect_camera CamMaps.init cid ws t0).text_buffers cid
        = some [] := by simp [connect_camera]
    simpa using appendAll_buffer cid fs _ [] hconn
  match fs, hne with
  | f :: fs, _ =>
      refine ⟨?_, ?_, ?_, ?_⟩ <;> simp [flushBuffer, hbuf, rawText]

/-- Witness for C1 at a concrete two-fragment run. -/
theorem buffer_flush_order_witness :
    (⟨"smoke seen near exit", "t1"⟩ : Fragment) ::
        [⟨"flames visible on roof", "t2"⟩] ≠ [] ∧
    (let st := appendAll (connect_camera CamMaps.init "cam1" (0 : Nat) 5) "cam1"
        [⟨"smoke seen near exit", "t1"⟩, ⟨"flames visible on roof", "t2"⟩]
     (flushBuffer st "cam1" 99).map Prod.fst
        = some [⟨"smoke seen near exit", "t1"⟩, ⟨"flames visible on roof", "t2"⟩] ∧
     (flushBuffer st "cam1" 99).map (fun p => rawText p.1)
        = some (String.intercalate "\n"
            ([⟨"smoke seen near exit", "t1"⟩,
              (⟨"flames visible on roof", "t2"⟩ : Fragment)].map Fragment.text)) ∧
     (flushBuffer st "cam1" 99).map (fun p => p.2.text_buffers "cam1")
        = some (some []) ∧
     (flushBuffer st "cam1" 99).map (fun p => p.2.buffer_start_times "cam1")
        = some (some 99)) :=
  ⟨by decide, buffer_flush_order "cam1" (0 : Nat) 5 99
      [⟨"smoke seen near exit", "t1"⟩, ⟨"flames visible on roof", "t2"⟩]
      (by decide)⟩

/-! ## Dispatcher broadcast (`ConnectionManager.broadcast_to_dispatchers`) -/

/-- `disconnect_dispatcher` (main.py lines 130-132): remove the websocket
from the dispatcher list if present (Python `list.remove` drops the first
occurrence). -/
def disconnect_dispatcher (conns : List Conn) (ws : Conn) : List Conn :=
  if ws ∈ conns then conns.erase ws else conns

/-- The send loop of `broadcast_to_dispatchers` (main.py lines 137-142):
walk the dispatcher list in order; a successful send delivers the message,
a failing send lands the websocket on the `disconnected` list.  `fails`
says which sends raise.  Returns (delivered, disconnected), both in list
order. -/
def sendLoop (fails : Conn → Bool) : List Conn → List Conn × List Conn
  | [] => ([], [])
  | ws :: rest =>
      let r := sendLoop fails rest
      if fails ws then (r.1, ws :: r.2) else (ws :: r.1, r.2)

/-- `broadcast_to_dispatchers` (main.py lines 135-145): try to send to
every dispatcher, then remove each websocket that failed.  Every failure
is swallowed by the bare `except`, so the function is total — nothing
propagates to the caller.  Returns (connections that received the message,
dispatcher list after cleanup). -/
def broadcast_to_dispatchers (conns : List Conn) (fails : Conn → Bool) :
    List Conn × List Conn :=
  let r := sendLoop fails conns
  (r.1, r.2.foldl disconnect_dispatcher conns)

theorem sendLoop_eq (fails : Conn → Bool) (conns : List Conn) :
    sendLoop fails conns
      = (conns.filter (fun ws => !fails ws), conns.filter fails) := by
  induction conns with
  | nil => rfl
  | cons ws rest ih =>
      cases h : fails ws <;> simp [sendLoop, ih, List.filter_cons, h]

theorem foldl_disconnect_skip (x : Conn) (del : List Conn)
    (hx : ∀ y ∈ del, y ≠ x) :
    ∀ acc : List Conn,
      del.foldl disconnect_dispatcher (x :: acc)
        = x :: del.foldl disconnect_dispatcher acc := by
  induction del with
  | nil => intro acc; rfl
  | cons y del ih =>
      intro acc
      have hyx : y ≠ x := hx y (by simp)
      have hstep : disconnect_dispatcher (x :: acc) y
          = x :: disconnect_dispatcher acc y := by
        simp only [disconnect_dispatcher, List.mem_cons]
        rcases Decidable.em (y ∈ acc) with hmem | hmem
        · rw [if_pos (Or.inr hmem), if_pos hmem,
            List.erase_cons_tail (by simpa using Ne.symm hyx)]
        · rw [if_neg (by simp [hmem, hyx]), if_neg hmem]
      simp only [List.foldl_cons, hstep]
      exact ih (fun z hz => hx z (by simp [hz])) (disconnect_dispatcher acc y)

theorem foldl_disconnect_filter (fails : Conn → Bool) (conns : List Conn) :
    (conns.filter fails).foldl disconnect_dispatcher conns
      = conns.filter (fun ws => !fails ws) := by
  induction conns with
  | nil => rfl
  | cons x rest ih =>
      cases h : fails x with
      | false =>
          have hne : ∀ y ∈ rest.filter fails, y ≠ x := by
            intro y hy hxy
            have := List.of_mem_filter hy
            rw [hxy] at this
            simp [h] at this
          calc ((x :: rest).filter fails).foldl disconnect_dispatcher (x :: rest)
              = (rest.filter fails).foldl disconnect_dispatcher (x :: rest) := by
                simp [List.filter_cons, h]
            _ = x :: (rest.filter fails).foldl disconnect_dispatcher rest :=
                foldl_disconnect_skip x _ hne rest
            _ = x :: rest.filter (fun ws => !fails ws) := by rw [ih]
            _ = (x :: rest).filter (fun ws => !fails ws) := by
                simp [List.filter_cons, h]
      | true =>
          have hstep : disconnect_dispatcher (x :: rest) x = rest := by
            simp [disconnect_dispatcher]
          calc ((x :: rest).filter fails).foldl disconnect_dispatcher (x :: rest)
              = (rest.filter fails).foldl disconnect_dispatcher rest := by
                simp [List.filter_cons, h, List.foldl_cons, hstep]
            _ = rest.filter (fun ws => !fails ws) := ih
            _ = (x :: rest).filter (fun ws => !fails ws) := by
                simp [List.filter_cons, h]

/-- C3: for every dispatcher list and every set of failing sends, the
broadcast delivers the message to exactly the non-failing connections (in
list order), the dispatcher list afterwards is exactly the non-failing
connections (every failing connection was removed), and — the function
being total — no error propagates to the caller. -/
theorem broadcast_isolated_failures (conns : List Conn) (fails : Conn → Bool) :
    (broadcast_to_dispatchers conns fails).1
        = conns.filter (fun ws => !fails ws) ∧
    (broadcast_to_dispatchers conns fails).2
        = conns.filter (fun ws => !fails ws) ∧
    ∀ ws ∈ (broadcast_to_dispatchers conns fails).2, fails ws = false := by
  have h1 : (broadcast_to_dispatchers conns fails).1
      = conns.filter (fun ws => !fails ws) := by
    simp [broadcast_to_dispatchers, sendLoop_eq]
  have h2 : (broadcast_to_dispatchers conns fails).2
      = conns.filter (fun ws => !fails ws) := by
    simp [broadcast_to_dispatchers, sendLoop_eq, foldl_disconnect_filter]
  refine ⟨h1, h2, ?_⟩
  intro ws hws
  rw [h2] at hws
  simpa using List.of_mem_filter hws

/-- Witness for C3: three dispatchers where exactly the second one fails;
the first and third receive the message and the second is pruned. -/
theorem broadcast_isolated_failures_witness :
    (broadcast_to_dispatchers [1, 2, 3] (fun ws => ws == 2)).1 = [1, 3] ∧
    (broadcast_to_dispatchers [1, 2, 3] (fun ws => ws == 2)).2 = [1, 3] ∧
    ∀ ws ∈ (broadcast_to_dispatchers [1, 2, 3] (fun ws => ws == 2)).2,
      (ws == 2) = false := by
  have h := broadcast_isolated_failures [1, 2, 3] (fun ws => ws == 2)
  refine ⟨?_, ?_, h.2.2⟩
  · rw [h.1]; decide
  · rw [h.2.1]; decide

/-! ## Classifier (`services/orchestrator.py`) -/

/-- The classification dict flowing out of `classify_incident` and into
`process_buffer`.  Every access in the source goes through `dict.get`, so
each field is optional; the success path returns `json.loads` output
unvalidated, so any combination of values can occur. -/
structure Classification where
  incident_type : Option String
  severity : Option String
  urgency : Option String
  confidence : Option Rat
  reasoning : Option String
  activate_agents : Option (List String)
deriving DecidableEq

/-- Outcome of the Gemini `generate_content` call inside
`classify_incident`: the response parsed to a classification dict, a
`json.JSONDecodeError` from `json.loads`, or any other exception. -/
inductive GeminiOutcome where
  | parsed (cls : Classification)
  | jsonError
  | exn (msg : String)
deriving DecidableEq

/-- The fallback dict literal repeated at orchestrator.py lines 69-76,
101-108 and 111-118; only the `reasoning` text differs between the three
failure branches. -/
def fallbackClassification (reasoning : String) : Classification :=
  { incident_type := some "UNKNOWN"
  , severity := some "MEDIUM"
  , urgency := some "SOON"
  , confidence := some ((3 : Rat) / 10)
  , reasoning := some reasoning
  , activate_agents := some ["EMS"] }

/-- `classify_incident` (orchestrator.py lines 63-118): with no client
(missing `GEMINI_API_KEY`) return the "API not configured" fallback;
otherwise return the parsed response verbatim on success, the "Failed to
parse AI response" fallback on a JSON decode error, and the
"Classification error: ..." fallback on any other exception. -/
def classify_incident (hasClient : Bool) (outcome : GeminiOutcome) :
    Classification :=
  if !hasClient then
    fallbackClassification "Classification unavailable - API not configured"
  else
    match outcome with
    | .parsed cls => cls
    | .jsonError => fallbackClassification "Failed to parse AI response"
    | .exn msg => fallbackClassification ("Classification error: " ++ msg)

/-! ## Compressor (`services/compression.py`) -/

/-- Outcome of the HTTP POST inside `compress_text`: either some exception
escaped the `try` block (transport error, `response.json()` failure, ...)
or a response arrived with a status code and an optional `"output"` field.
The token-count fields of the response body only feed a log line and are
omitted. -/
inductive CompressOutcome where
  | exn
  | response (status : Nat) (output : Option String)
deriving DecidableEq

/-- Python `not text.strip()`: true when every character is whitespace. -/
def isBlank (s : String) : Bool :=
  s.data.all Char.isWhitespace

/-- `compress_text` (compression.py lines 11-64): blank input (`not text
or not text.strip()`) and missing API key are returned unchanged; an
exception or non-200 status falls back to the input; a 200 response yields
`result.get("output", text)` — the input only when the `"output"` key is
absent. -/
def compress_text (text : String) (hasKey : Bool) (outcome : CompressOutcome) :
    String :=
  if text == "" || isBlank text then text
  else if !hasKey then text
  else
    match outcome with
    | .exn => text
    | .response status output =>
        if status = 200 then output.getD text else text

/-- The `compressed_text` handed to the classifier by `process_buffer`
(main.py lines 275-284): the compressor output when the compression module
imported (`HAS_COMPRESSION`), the raw text otherwise. -/
def classifierInput (raw : String) (hasCompression hasKey : Bool)
    (outcome : CompressOutcome) : String :=
  if hasCompression then compress_text raw hasKey outcome else raw

/-- C5, counterexample: with missing credentials (no Gemini client) the
classification returned by `classify_incident` has incident type
`"UNKNOWN"`, which is not one of FIRE, POLICE, EMS, MULTI, NONE — so the
claimed enum invariant fails on the fallback paths. -/
theorem classifier_enum_counterexample :
    (classify_incident false .jsonError).incident_type = some "UNKNOWN" ∧
    "UNKNOWN" ∉ ["FIRE", "POLICE", "EMS", "MULTI", "NONE"] := by
  constructor
  · rfl
  · decide

/-- C5, amended: every failure outcome (missing credentials, malformed
JSON, any other exception) yields the fixed fallback classification with
incident type `"UNKNOWN"`, confidence 0.3 and `activate_agents = ["EMS"]`;
a successful call returns the parsed response verbatim, with no validation
of its incident type. -/
theorem classifier_fallback_unknown (hasClient : Bool)
    (outcome : GeminiOutcome) :
    (∀ cls, hasClient = true → outcome = .parsed cls →
      classify_incident hasClient outcome = cls) ∧
    (hasClient = false ∨ outcome = .jsonError ∨ (∃ msg, outcome = .exn msg) →
      (classify_incident hasClient outcome).incident_type = some "UNKNOWN" ∧
      (classify_incident hasClient outcome).confidence = some ((3 : Rat) / 10) ∧
      (classify_incident hasClient outcome).activate_agents = some ["EMS"]) := by
  constructor
  · rintro cls rfl rfl
    rfl
  · intro h
    rcases h with rfl | rfl | ⟨msg, rfl⟩
    · simp [classify_incident, fallbackClassification]
    · cases hasClient <;> simp [classify_incident, fallbackClassification]
    · cases hasClient <;> simp [classify_incident, fallbackClassification]

/-- Witness for C5's amended theorem: a concrete malformed-JSON outcome. -/
theorem classifier_fallback_unknown_witness :
    (classify_incident true .jsonError).incident_type = some "UNKNOWN" ∧
    (classify_incident true .jsonError).confidence = some ((3 : Rat) / 10) ∧
    (classify_incident true .jsonError).activate_agents = some ["EMS"] :=
  (classifier_fallback_unknown true .jsonError).2 (Or.inr (Or.inl rfl))

/-- C7, counterexample: a 200 response whose `"output"` field is present
but empty is NOT returned as the input text — `result.get("output", text)`
yields the empty string, so the "empty output field" failure mode of the
claim fails. -/
theorem compress_empty_output_counterexample :
    compress_text "smoke near exit" true (.response 200 (some "")) = "" ∧
    ("" : String) ≠ "smoke near exit" := by
  constructor
  · decide
  · decide

/-- C7, amended: for every raw text, a missing API key, a transport
exception, a non-200 status, or a 200 response with the `"output"` field
absent all make `compress_text` return the input unchanged, and so (with
compression enabled) the classifier receives the original text verbatim;
a present-but-empty `"output"` field is instead returned as the empty
string. -/
theorem compress_failure_identity (text : String) (hasKey : Bool)
    (outcome : CompressOutcome)
    (h : hasKey = false ∨ outcome = .exn ∨
      (∃ s o, outcome = .response s o ∧ s ≠ 200) ∨
      outcome = .response 200 none) :
    compress_text text hasKey outcome = text ∧
    classifierInput text true hasKey outcome = text := by
  have hmain : compress_text text hasKey outcome = text := by
    unfold compress_text
    by_cases hb : (text == "" || isBlank text) = true
    · simp [hb]
    · rcases h with rfl | rfl | ⟨s, o, rfl, hs⟩ | rfl
      · simp [hb]
      · simp [hb]
      · simp [hb, hs]
      · simp [hb]
  exact ⟨hmain, by simpa [classifierInput] using hmain⟩

/-- Witness for C7's amended theorem: a concrete non-200 response. -/
theorem compress_failure_identity_witness :
    compress_text "smoke near exit" true (.response 500 (some "x"))
        = "smoke near exit" ∧
    classifierInput "smoke near exit" true true (.response 500 (some "x"))
        = "smoke near exit" :=
  compress_failure_identity "smoke near exit" true (.response 500 (some "x"))
    (Or.inr (Or.inr (Or.inl ⟨500, some "x", rfl, by decide⟩)))

/-! ## Specialist agents and alert assembly (`process_buffer`, main.py 299-369) -/

/-- The dict an agent module returns (`run_fire_agent` and friends): four
optional list fields, per the schema all three agents produce. -/
structure AgentOutput where
  key_facts : Option (List String)
  hazards : Option (List String)
  equipment : Option (List String)
  unknowns : Option (List String)
deriving DecidableEq

/-- One value of the `agent_reports` dict built in `process_buffer`.  The
source merges `{"activated": True, **result}` on success, writes
`{"activated": True, "error": str(e)}` on an exception, and
`{"activated": False, "reason": ...}` for agents that were not invoked;
absent keys are `none`. -/
structure AgentReport where
  activated : Bool
  key_facts : Option (List String)
  hazards : Option (List String)
  equipment : Option (List String)
  unknowns : Option (List String)
  error : Option String
  reason : Option String
deriving DecidableEq

/-- Outcome of each specialist agent invocation: the parsed report dict,
or the message of the exception the `await coro` raised. -/
structure AgentEnv where
  fire : Except String AgentOutput
  ems : Except String AgentOutput
  police : Except String AgentOutput

/-- `{"activated": True, **result}` (main.py line 318). -/
def successReport (out : AgentOutput) : AgentReport :=
  { activated := true
  , key_facts := out.key_facts
  , hazards := out.hazards
  , equipment := out.equipment
  , unknowns := out.unknowns
  , error := none
  , reason := none }

/-- `{"activated": True, "error": str(e)}` (main.py line 322). -/
def errorReport (msg : String) : AgentReport :=
  { activated := true
  , key_facts := none
  , hazards := none
  , equipment := none
  , unknowns := none
  , error := some msg
  , reason := none }

/-- The `try/except` around `await coro` (main.py lines 315-322). -/
def runAgent : Except String AgentOutput → AgentReport
  | .ok out => successReport out
  | .error msg => errorReport msg

/-- How a Python f-string renders `classification.get("incident_type")`:
the string itself, or `"None"` for a missing key. -/
def pyStr : Option String → String
  | some s => s
  | none => "None"

/-- `{"activated": False, "reason": f"Not needed for {...} incident"}`
(main.py lines 327-330). -/
def notActivatedReport (incident_type : Option String) : AgentReport :=
  { activated := false
  , key_facts := none
  , hazards := none
  , equipment := none
  , unknowns := none
  , error := none
  , reason := some ("Not needed for " ++ pyStr incident_type ++ " incident") }

/-- `classification.get("activate_agents", [])` (main.py line 300). -/
def agentsToRun (cls : Classification) : List String :=
  cls.activate_agents.getD []

/-- The task list built at main.py lines 304-311 and consumed in order by
the `for agent_name, coro in tasks` loop: an entry per agent whose name
appears in `activate_agents`, in the fixed order fire, ems, police. -/
def activatedReports (cls : Classification) (env : AgentEnv) :
    List (String × AgentReport) :=
  (if (agentsToRun cls).contains "FIRE"
    then [("fire", runAgent env.fire)] else []) ++
  (if (agentsToRun cls).contains "EMS"
    then [("ems", runAgent env.ems)] else []) ++
  (if (agentsToRun cls).contains "POLICE"
    then [("police", runAgent env.police)] else [])

/-- One iteration of the fill loop at main.py lines 325-330: add a
not-activated entry unless the key is already in the dict. -/
def fillStep (incident_type : Option String)
    (acc : List (String × AgentReport)) (name : String) :
    List (String × AgentReport) :=
  if (acc.lookup name).isSome then acc
  else acc ++ [(name, notActivatedReport incident_type)]

/-- The complete `agent_reports` dict: the activated entries, then the
fill loop over `["fire", "ems", "police"]`. -/
def agentReportsDict (cls : Classification) (env : AgentEnv) :
    List (String × AgentReport) :=
  ["fire", "ems", "police"].foldl (fillStep cls.incident_type)
    (activatedReports cls env)

/-! ### Alert id (main.py line 333)

`incident_id = f"INC_{camera_id}_{int(datetime.now().timestamp())}"`.
Wall-clock time is modelled in milliseconds, so `int(...)` — truncation to
whole seconds — is division by 1000; its decimal rendering is
`decimalRepr`, fuel-based so that it evaluates by kernel reduction. -/

/-- Decimal digits of `n`, least significant first, via explicit fuel
(`fuel ≥ n` suffices); `[]` for zero. -/
def decDigitsAux : Nat → Nat → List Nat
  | 0, _ => []
  | fuel + 1, n => if n = 0 then [] else n % 10 :: decDigitsAux fuel (n / 10)

def decDigits (n : Nat) : List Nat :=
  decDigitsAux n n

/-- The decimal string for `n`, as Python `str`/`repr` prints a
nonnegative int: most significant digit first, no leading zeros, `"0"`
for zero. -/
def decimalRepr (n : Nat) : String :=
  if n = 0 then "0" else (((decDigits n).map Nat.digitChar).reverse).asString

/-- `f"INC_{camera_id}_{int(...)}"` with the flush instant in
milliseconds. -/
def alertId (cid : String) (nowMs : Nat) : String :=
  "INC_" ++ cid ++ "_" ++ decimalRepr (nowMs / 1000)

/-- The alert report dict (main.py lines 335-355). -/
structure Alert where
  id : String
  timestamp : Nat
  camera_id : String
  incident_type : String
  severity : String
  urgency : String
  confidence : Rat
  summary : String
  agents_activated : List String
  agent_reports : List (String × AgentReport)
  clip_start : Option String
  clip_end : Option String
  status : String
  raw_context : String

/-- Build the alert (main.py lines 333-355), with every `dict.get` default
of the source. -/
def buildAlert (cid : String) (now : Nat) (cls : Classification)
    (env : AgentEnv) (buffer : List Fragment) (compressed : String) : Alert :=
  { id := alertId cid now
  , timestamp := now
  , camera_id := cid
  , incident_type := cls.incident_type.getD "UNKNOWN"
  , severity := cls.severity.getD "MEDIUM"
  , urgency := cls.urgency.getD "SOON"
  , confidence := cls.confidence.getD ((1 : Rat) / 2)
  , summary := cls.reasoning.getD "Incident detected"
  , agents_activated := agentsToRun cls
  , agent_reports := agentReportsDict cls env
  , clip_start := buffer.head?.map Fragment.timestamp
  , clip_end := buffer.getLast?.map Fragment.timestamp
  , status := "PENDING_REVIEW"
  , raw_context := compressed.take 500 }

/-- The tail of `process_buffer` after classification (main.py lines
292-369): stop with nothing when `classification.get("incident_type") ==
"NONE"`, otherwise run the agents, assemble the alert and broadcast it.
`some` means the alert is built and handed to
`broadcast_to_dispatchers`; `none` means the cycle ended with no alert
and no broadcast. -/
def runTriage (cls : Classification) (env : AgentEnv) (cid : String)
    (now : Nat) (buffer : List Fragment) (compressed : String) :
    Option Alert :=
  if cls.incident_type = some "NONE" then none
  else some (buildAlert cid now cls env buffer compressed)

/-- All of `process_buffer` (main.py lines 257-371): flush the buffer
(empty buffer: silent no-op), compress, classify, then `runTriage`.
Returns the camera-map state after the cycle and the alert broadcast, if
any. -/
def process_buffer (st : CamMaps) (cid : String) (now : Nat)
    (hasCompression hasCompressKey : Bool) (comp : CompressOutcome)
    (hasClient : Bool) (gem : GeminiOutcome) (env : AgentEnv) :
    CamMaps × Option Alert :=
  match flushBuffer st cid now with
  | none => (st, none)
  | some (buffer, st1) =>
      let raw := rawText buffer
      let compressed := classifierInput raw hasCompression hasCompressKey comp
      let cls := classify_incident hasClient gem
      (st1, runTriage cls env cid now buffer compressed)

/-- The payloads handed to `broadcast_to_dispatchers` by one
`process_buffer` cycle (main.py lines 366-369): the alert when one was
built, nothing otherwise. -/
def alertMessages (r : CamMaps × Option Alert) : List Alert :=
  r.2.toList

/-- C2: whenever the classifier returns a classification whose incident
type is `"NONE"`, the flush cycle ends without constructing an alert and
with nothing broadcast to dispatchers, whatever the buffer contents and
compressor outcome. -/
theorem none_classification_no_alert (st : CamMaps) (cid : String)
    (now : Nat) (hasCompression hasCompressKey : Bool)
    (comp : CompressOutcome) (hasClient : Bool) (gem : GeminiOutcome)
    (env : AgentEnv)
    (h : (classify_incident hasClient gem).incident_type = some "NONE") :
    (process_buffer st cid now hasCompression hasCompressKey comp
        hasClient gem env).2 = none ∧
    alertMessages (process_buffer st cid now hasCompression hasCompressKey
        comp hasClient gem env) = [] := by
  have : (process_buffer st cid now hasCompression hasCompressKey comp
      hasClient gem env).2 = none := by
    unfold process_buffer
    cases hflush : flushBuffer st cid now with
    | none => rfl
    | some p => simp [runTriage, h]
  exact ⟨this, by simp [alertMessages, this]⟩

/-- Witness for C2: a concrete one-fragment buffer, a successful
compression, and a parsed `"NONE"` classification. -/
theorem none_classification_no_alert_witness :
    (classify_incident true
        (.parsed ⟨some "NONE", some "LOW", some "ROUTINE", some 1,
          some "calm street", some []⟩)).incident_type = some "NONE" ∧
    ((process_buffer
        (appendAll (connect_camera CamMaps.init "cam1" 7 0) "cam1"
          [⟨"people walking", "t1"⟩])
        "cam1" 2000 true true (.response 200 (some "walkers"))
        true (.parsed ⟨some "NONE", some "LOW", some "ROUTINE", some 1,
          some "calm street", some []⟩)
        ⟨.ok ⟨none, none, none, none⟩, .ok ⟨none, none, none, none⟩,
          .ok ⟨none, none, none, none⟩⟩).2 = none ∧
      alertMessages (process_buffer
        (appendAll (connect_camera CamMaps.init "cam1" 7 0) "cam1"
          [⟨"people walking", "t1"⟩])
        "cam1" 2000 true true (.response 200 (some "walkers"))
        true (.parsed ⟨some "NONE", some "LOW", some "ROUTINE", some 1,
          some "calm street", some []⟩)
        ⟨.ok ⟨none, none, none, none⟩, .ok ⟨none, none, none, none⟩,
          .ok ⟨none, none, none, none⟩⟩) = []) :=
  ⟨rfl, none_classification_no_alert _ "cam1" 2000 true true _ true _ _ rfl⟩

/-! ### Lookup structure of the `agent_reports` dict -/

theorem lookup_append_left (k : String) (l1 l2 : List (String × AgentReport))
    (h : (l1.lookup k).isSome) : (l1 ++ l2).lookup k = l1.lookup k := by
  induction l1 with
  | nil => simp at h
  | cons p l1 ih =>
      cases hk : (k == p.1) with
      | true => simp [List.lookup, hk]
      | false =>
          have h' : (l1.lookup k).isSome := by
            simpa [List.lookup, hk] using h
          simpa [List.lookup, hk] using ih h'

/-- The `agent_reports` entry for `"fire"` in closed form. -/
theorem lookup_fire_formula (cls : Classification) (env : AgentEnv) :
    (agentReportsDict cls env).lookup "fire"
      = some (if (agentsToRun cls).contains "FIRE"
          then runAgent env.fire else notActivatedReport cls.incident_type) := by
  by_cases hf : "FIRE" ∈ agentsToRun cls <;>
    by_cases he : "EMS" ∈ agentsToRun cls <;>
    by_cases hp : "POLICE" ∈ agentsToRun cls <;>
    simp [agentReportsDict, activatedReports, fillStep, List.lookup,
      hf, he, hp]

/-- The `agent_reports` entry for `"ems"` in closed form. -/
theorem lookup_ems_formula (cls : Classification) (env : AgentEnv) :
    (agentReportsDict cls env).lookup "ems"
      = some (if (agentsToRun cls).contains "EMS"
          then runAgent env.ems else notActivatedReport cls.incident_type) := by
  by_cases hf : "FIRE" ∈ agentsToRun cls <;>
    by_cases he : "EMS" ∈ agentsToRun cls <;>
    by_cases hp : "POLICE" ∈ agentsToRun cls <;>
    simp [agentReportsDict, activatedReports, fillStep, List.lookup,
      hf, he, hp]

/-- The `agent_reports` entry for `"police"` in closed form. -/
theorem lookup_police_formula (cls : Classification) (env : AgentEnv) :
    (agentReportsDict cls env).lookup "police"
      = some (if (agentsToRun cls).contains "POLICE"
          then runAgent env.police else notActivatedReport cls.incident_type) := by
  by_cases hf : "FIRE" ∈ agentsToRun cls <;>
    by_cases he : "EMS" ∈ agentsToRun cls <;>
    by_cases hp : "POLICE" ∈ agentsToRun cls <;>
    simp [agentReportsDict, activatedReports, fillStep, List.lookup,
      hf, he, hp]

/-- C4: in a flush cycle with a non-NONE classification, an exception from
an activated specialist agent (here: fire) gives that agent the report
`{activated: true, error: <message>}`, leaves the other agents' reports
exactly as they would be produced with any agent environment agreeing on
them, and the cycle still builds (and therefore broadcasts) the alert. -/
theorem agent_error_isolated (cls : Classification) (env : AgentEnv)
    (cid : String) (now : Nat) (buffer : List Fragment)
    (compressed : String) (msg : String)
    (hN : ¬ cls.incident_type = some "NONE")
    (hF : "FIRE" ∈ agentsToRun cls)
    (hfire : env.fire = .error msg) :
    (runTriage cls env cid now buffer compressed).isSome = true ∧
    (runTriage cls env cid now buffer compressed).map
        (fun a => a.agent_reports.lookup "fire")
      = some (some (errorReport msg)) ∧
    ∀ env' : AgentEnv, env'.ems = env.ems → env'.police = env.police →
      (agentReportsDict cls env').lookup "ems"
          = (agentReportsDict cls env).lookup "ems" ∧
      (agentReportsDict cls env').lookup "police"
          = (agentReportsDict cls env).lookup "police" := by
  have htr : runTriage cls env cid now buffer compressed
      = some (buildAlert cid now cls env buffer compressed) := by
    simp [runTriage, hN]
  refine ⟨by simp [htr], ?_, ?_⟩
  · rw [htr]
    simp [buildAlert, lookup_fire_formula, hF, hfire, runAgent]
  · intro env' hems hpol
    rw [lookup_ems_formula, lookup_ems_formula, hems,
      lookup_police_formula, lookup_police_formula, hpol]
    exact ⟨rfl, rfl⟩

/-- Witness for C4: FIRE and EMS activated, the fire agent raising
`"boom"`, the EMS agent succeeding. -/
theorem agent_error_isolated_witness :
    (runTriage
        ⟨some "FIRE", some "HIGH", some "IMMEDIATE", some ((9 : Rat) / 10),
          some "flames", some ["FIRE", "EMS"]⟩
        ⟨.error "boom", .ok ⟨some ["injury"], none, none, none⟩,
          .ok ⟨none, none, none, none⟩⟩
        "cam1" 5000 [⟨"flames visible", "t1"⟩] "flames").isSome = true ∧
    (runTriage
        ⟨some "FIRE", some "HIGH", some "IMMEDIATE", some ((9 : Rat) / 10),
          some "flames", some ["FIRE", "EMS"]⟩
        ⟨.error "boom", .ok ⟨some ["injury"], none, none, none⟩,
          .ok ⟨none, none, none, none⟩⟩
        "cam1" 5000 [⟨"flames visible", "t1"⟩] "flames").map
        (fun a => a.agent_reports.lookup "fire")
      = some (some (errorReport "boom")) :=
  let h := agent_error_isolated
    ⟨some "FIRE", some "HIGH", some "IMMEDIATE", some ((9 : Rat) / 10),
      some "flames", some ["FIRE", "EMS"]⟩
    ⟨.error "boom", .ok ⟨some ["injury"], none, none, none⟩,
      .ok ⟨none, none, none, none⟩⟩
    "cam1" 5000 [⟨"flames visible", "t1"⟩] "flames" "boom"
    (by decide) (by decide) rfl
  ⟨h.1, h.2.1⟩

/-- C6: in every alert the `agent_reports` dict has exactly the three keys
fire, ems, police, and every agent whose name is not in `activate_agents`
is recorded as activated-false with none of the content fields
(key facts, hazards, equipment, unknowns, error). -/
theorem agent_reports_exactly_three (cls : Classification) (env : AgentEnv) :
    ((agentReportsDict cls env).map Prod.fst).Perm ["fire", "ems", "police"] ∧
    (¬ "FIRE" ∈ agentsToRun cls →
      (agentReportsDict cls env).lookup "fire"
        = some (notActivatedReport cls.incident_type)) ∧
    (¬ "EMS" ∈ agentsToRun cls →
      (agentReportsDict cls env).lookup "ems"
        = some (notActivatedReport cls.incident_type)) ∧
    (¬ "POLICE" ∈ agentsToRun cls →
      (agentReportsDict cls env).lookup "police"
        = some (notActivatedReport cls.incident_type)) ∧
    ∀ it : Option String,
      (notActivatedReport it).activated = false ∧
      (notActivatedReport it).key_facts = none ∧
      (notActivatedReport it).hazards = none ∧
      (notActivatedReport it).equipment = none ∧
      (notActivatedReport it).unknowns = none ∧
      (notActivatedReport it).error = none := by
  refine ⟨?_, ?_, ?_, ?_, ?_⟩
  · by_cases hf : "FIRE" ∈ agentsToRun cls <;>
      by_cases he : "EMS" ∈ agentsToRun cls <;>
      by_cases hp : "POLICE" ∈ agentsToRun cls <;>
      (simp [agentReportsDict, activatedReports, fillStep, List.lookup,
        hf, he, hp] <;> decide)
  · intro h
    rw [lookup_fire_formula]
    simp [h]
  · intro h
    rw [lookup_ems_formula]
    simp [h]
  · intro h
    rw [lookup_police_formula]
    simp [h]
  · intro it
    exact ⟨rfl, rfl, rfl, rfl, rfl, rfl⟩

/-- Witness for C6 with an empty `activate_agents` list: all three keys
present, each carrying the activated-false report. -/
theorem agent_reports_exactly_three_witness :
    (((agentReportsDict ⟨some "NONEMERGENCY", none, none, none, none, some []⟩
        ⟨.ok ⟨none, none, none, none⟩, .ok ⟨none, none, none, none⟩,
          .ok ⟨none, none, none, none⟩⟩).map Prod.fst).Perm
      ["fire", "ems", "police"]) ∧
    ((agentReportsDict ⟨some "NONEMERGENCY", none, none, none, none, some []⟩
        ⟨.ok ⟨none, none, none, none⟩, .ok ⟨none, none, none, none⟩,
          .ok ⟨none, none, none, none⟩⟩).lookup "fire"
      = some (notActivatedReport (some "NONEMERGENCY"))) ∧
    ((agentReportsDict ⟨some "NONEMERGENCY", none, none, none, none, some []⟩
        ⟨.ok ⟨none, none, none, none⟩, .ok ⟨none, none, none, none⟩,
          .ok ⟨none, none, none, none⟩⟩).lookup "ems"
      = some (notActivatedReport (some "NONEMERGENCY"))) ∧
    ((agentReportsDict ⟨some "NONEMERGENCY", none, none, none, none, some []⟩
        ⟨.ok ⟨none, none, none, none⟩, .ok ⟨none, none, none, none⟩,
          .ok ⟨none, none, none, none⟩⟩).lookup "police"
      = some (notActivatedReport (some "NONEMERGENCY"))) :=
  let h := agent_reports_exactly_three
    ⟨some "NONEMERGENCY", none, none, none, none, some []⟩
    ⟨.ok ⟨none, none, none, none⟩, .ok ⟨none, none, none, none⟩,
      .ok ⟨none, none, none, none⟩⟩
  ⟨h.1, h.2.1 (by decide), h.2.2.1 (by decide), h.2.2.2.1 (by decide)⟩

/-! ## Inbound message handling (`camera_websocket`, `dispatcher_websocket`)

One loop iteration of each handler is modelled at the JSON level: the
value returned by `websocket.receive_json()` and the branch the handler
takes on it.  The effects carry the raw field values the source extracts;
their execution (buffer mutation, logging, flush scheduling) is modelled
separately at the typed level above. -/

/-- A parsed JSON value. -/
inductive JVal where
  | null
  | jbool (b : Bool)
  | jnum (n : Int)
  | jstr (s : String)
  | jarr (elems : List JVal)
  | jobj (fields : List (String × JVal))

/-- Python `data.get(k)` on a dict (association list, first match). -/
def dictGet (fields : List (String × JVal)) (k : String) : Option JVal :=
  (fields.find? (fun p => p.1 == k)).map Prod.snd

/-- Python `data.get("type") == s`: true only when the `"type"` value is
exactly the string `s`. -/
def isTypeTag (fields : List (String × JVal)) (s : String) : Bool :=
  match dictGet fields "type" with
  | some (.jstr t) => t == s
  | _ => false

/-- What one camera-handler iteration does with the received value. -/
inductive CamEffect where
  | append (description timestamp : Option JVal)
  | forceProcess
  | ignore

/-- `handled` — the `while True` loop continues; `crashed` — field access
on the value raised (`.get` on a non-dict is an `AttributeError`), the
`except Exception` arm at main.py lines 207-209 runs
`disconnect_camera` and the handler returns, terminating the
connection. -/
inductive CamStep where
  | handled (eff : CamEffect)
  | crashed

/-- One iteration of `camera_websocket` (main.py lines 179-209) on a
received JSON value. -/
def cameraHandleMsg : JVal → CamStep
  | .jobj fields =>
      if isTypeTag fields "overshoot_result" then
        .handled (.append (dictGet fields "description")
          (dictGet fields "timestamp"))
      else if isTypeTag fields "force_process" then
        .handled .forceProcess
      else
        .handled .ignore
  | _ => .crashed

/-- What one dispatcher-handler iteration does with the received value. -/
inductive DispEffect where
  | confirmLogged (incident_id dispatcher_id : Option JVal)
  | rejectLogged (incident_id reason dispatcher_id : Option JVal)
  | ignore

/-- As `CamStep`, for `dispatcher_websocket` (main.py lines 252-254 run
`disconnect_dispatcher` and return on any exception). -/
inductive DispStep where
  | handled (eff : DispEffect)
  | crashed

/-- One iteration of `dispatcher_websocket` (main.py lines 221-254) on a
received JSON value. -/
def dispatcherHandleMsg : JVal → DispStep
  | .jobj fields =>
      if isTypeTag fields "confirm" then
        .handled (.confirmLogged (dictGet fields "incident_id")
          (dictGet fields "dispatcher_id"))
      else if isTypeTag fields "reject" then
        .handled (.rejectLogged (dictGet fields "incident_id")
          (dictGet fields "reason") (dictGet fields "dispatcher_id"))
      else
        .handled .ignore
  | _ => .crashed

/-- C8, counterexample: a malformed (non-object) inbound message — a JSON
array on the camera channel, a bare JSON string on the dispatcher
channel — makes field access raise, and the handler tears the connection
down rather than treating the message as a no-op. -/
theorem malformed_message_terminates :
    cameraHandleMsg (.jarr []) = .crashed ∧
    dispatcherHandleMsg (.jstr "hello") = .crashed :=
  ⟨rfl, rfl⟩

/-- C8, amended: an inbound message that is a JSON object with an
unrecognized `type` value is a no-op on both channels and never
terminates the connection; but a malformed message whose shape breaks
field access (a non-object) raises, and the handler then closes out the
connection (session cleanup and return). -/
theorem unrecognized_type_noop (fields : List (String × JVal))
    (hc1 : isTypeTag fields "overshoot_result" = false)
    (hc2 : isTypeTag fields "force_process" = false)
    (hd1 : isTypeTag fields "confirm" = false)
    (hd2 : isTypeTag fields "reject" = false) :
    cameraHandleMsg (.jobj fields) = .handled .ignore ∧
    dispatcherHandleMsg (.jobj fields) = .handled .ignore := by
  constructor
  · simp [cameraHandleMsg, hc1, hc2]
  · simp [dispatcherHandleMsg, hd1, hd2]

/-- Witness for C8's amended theorem: the object `{"type": "ping"}`. -/
theorem unrecognized_type_noop_witness :
    cameraHandleMsg (.jobj [("type", .jstr "ping")]) = .handled .ignore ∧
    dispatcherHandleMsg (.jobj [("type", .jstr "ping")])
      = .handled .ignore :=
  unrecognized_type_noop [("type", .jstr "ping")] rfl rfl rfl rfl

/-! ## Alert-id uniqueness (C9) -/

/-- Recover the number from its least-significant-first digit list. -/
def fromDigits (l : List Nat) : Nat :=
  l.foldr (fun d acc => d + 10 * acc) 0

theorem decDigitsAux_spec :
    ∀ fuel n : Nat, n ≤ fuel → fromDigits (decDigitsAux fuel n) = n := by
  intro fuel
  induction fuel with
  | zero => intro n hn; interval_cases n; rfl
  | succ fuel ih =>
      intro n hn
      by_cases h0 : n = 0
      · subst h0; rfl
      · have hdiv : n / 10 ≤ fuel := by omega
        have := ih (n / 10) hdiv
        simp only [decDigitsAux, h0, if_false, fromDigits, List.foldr_cons]
        unfold fromDigits at this
        rw [this]
        omega

theorem fromDigits_decDigits (n : Nat) : fromDigits (decDigits n) = n :=
  decDigitsAux_spec n n le_rfl

theorem decDigitsAux_lt_ten :
    ∀ fuel n : Nat, ∀ d ∈ decDigitsAux fuel n, d < 10 := by
  intro fuel
  induction fuel with
  | zero => intro n d hd; simp [decDigitsAux] at hd
  | succ fuel ih =>
      intro n d hd
      by_cases h0 : n = 0
      · subst h0; simp [decDigitsAux] at hd
      · simp only [decDigitsAux, h0, if_false, List.mem_cons] at hd
        rcases hd with rfl | hd
        · omega
        · exact ih (n / 10) d hd

theorem digitChar_inj_lt (a b : Nat) (ha : a < 10) (hb : b < 10)
    (h : Nat.digitChar a = Nat.digitChar b) : a = b := by
  have key : ∀ x y : Fin 10, Nat.digitChar x.val = Nat.digitChar y.val →
      x = y := by decide
  have := key ⟨a, ha⟩ ⟨b, hb⟩ h
  exact congrArg Fin.val this

theorem map_digitChar_inj :
    ∀ l1 l2 : List Nat, (∀ x ∈ l1, x < 10) → (∀ x ∈ l2, x < 10) →
      l1.map Nat.digitChar = l2.map Nat.digitChar → l1 = l2 := by
  intro l1
  induction l1 with
  | nil =>
      intro l2 _ _ h
      cases l2 with
      | nil => rfl
      | cons b l2 => simp at h
  | cons a l1 ih =>
      intro l2 h1 h2 h
      cases l2 with
      | nil => simp at h
      | cons b l2 =>
          simp only [List.map_cons, List.cons.injEq] at h
          have hab : a = b :=
            digitChar_inj_lt a b (h1 a (by simp)) (h2 b (by simp)) h.1
          have htl : l1 = l2 :=
            ih l2 (fun x hx => h1 x (by simp [hx]))
              (fun x hx => h2 x (by simp [hx])) h.2
          rw [hab, htl]

theorem decimalRepr_data_inj (m n : Nat)
    (h : (decimalRepr m).data = (decimalRepr n).data) : m = n := by
  have hdata : ∀ k : Nat, k ≠ 0 →
      (decimalRepr k).data = ((decDigits k).map Nat.digitChar).reverse := by
    intro k hk
    simp [decimalRepr, hk, List.asString]
  by_cases hm : m = 0 <;> by_cases hn : n = 0
  · omega
  · exfalso
    rw [hm] at h
    rw [hdata n hn] at h
    have : (decDigits n).map Nat.digitChar = [Nat.digitChar 0] := by
      have := h.symm
      rw [show ((decimalRepr 0).data) = ['0'] from rfl] at this
      have hrev : ((decDigits n).map Nat.digitChar).reverse.reverse
          = ['0'].reverse := by rw [this]
      simpa using hrev
    have hsingle : decDigits n = [0] :=
      map_digitChar_inj (decDigits n) [0]
        (decDigitsAux_lt_ten n n) (by intro x hx; simp at hx; omega)
        (by simpa using this)
    have h1 := fromDigits_decDigits n
    rw [hsingle] at h1
    simp [fromDigits] at h1
    omega
  · exfalso
    rw [hn] at h
    rw [hdata m hm] at h
    have : (decDigits m).map Nat.digitChar = [Nat.digitChar 0] := by
      rw [show ((decimalRepr 0).data) = ['0'] from rfl] at h
      have hrev : ((decDigits m).map Nat.digitChar).reverse.reverse
          = ['0'].reverse := by rw [h]
      simpa using hrev
    have hsingle : decDigits m = [0] :=
      map_digitChar_inj (decDigits m) [0]
        (decDigitsAux_lt_ten m m) (by intro x hx; simp at hx; omega)
        (by simpa using this)
    have h1 := fromDigits_decDigits m
    rw [hsingle] at h1
    simp [fromDigits] at h1
    omega
  · rw [hdata m hm, hdata n hn] at h
    have hmap : (decDigits m).map Nat.digitChar
        = (decDigits n).map Nat.digitChar := by
      simpa using h
    have hdig : decDigits m = decDigits n :=
      map_digitChar_inj _ _ (decDigitsAux_lt_ten m m)
        (decDigitsAux_lt_ten n n) hmap
    have := fromDigits_decDigits m
    rw [hdig, fromDigits_decDigits n] at this
    omega

/-- C9, counterexample: two distinct flush instants 1000 ms and 1999 ms —
two distinct triage cycles for the same camera, flushing in quick
succession — produce the very same alert id, because the id truncates the
flush time to whole seconds. -/
theorem alert_id_collision :
    alertId "cam1" 1000 = alertId "cam1" 1999 ∧ (1000 : Nat) ≠ 1999 :=
  ⟨rfl, by decide⟩

/-- C9, amended: an alert id is determined by the camera id together with
the flush time truncated to whole seconds; for a fixed camera, two cycles
get equal ids exactly when their flush times fall in the same whole
second — so ids are unique across seconds but collide for same-camera
flushes within one second. -/
theorem alert_id_same_second_iff (cid : String) (ms1 ms2 : Nat) :
    alertId cid ms1 = alertId cid ms2 ↔ ms1 / 1000 = ms2 / 1000 := by
  constructor
  · intro h
    have hd := congrArg String.data h
    simp only [alertId, String.data_append] at hd
    have hcancel :
        (decimalRepr (ms1 / 1000)).data = (decimalRepr (ms2 / 1000)).data :=
      List.append_cancel_left hd
    exact decimalRepr_data_inj _ _ hcancel
  · intro h
    unfold alertId
    rw [h]

/-! ## Key-set invariant of the three per-camera maps (C10) -/

/-- One operation touching the per-camera maps: a camera connecting, a
camera disconnecting, or a `process_buffer` cycle (whose map mutations are
independent of its external-call parameters, carried here for
faithfulness). -/
inductive CamOp where
  | connect (cid : String) (ws : Conn) (now : Nat)
  | disconnect (cid : String)
  | process (cid : String) (now : Nat)
      (hasCompression hasCompressKey : Bool) (comp : CompressOutcome)
      (hasClient : Bool) (gem : GeminiOutcome) (env : AgentEnv)

/-- Apply one operation to the per-camera maps. -/
def applyOp (st : CamMaps) : CamOp → CamMaps
  | .connect cid ws now => connect_camera st cid ws now
  | .disconnect cid => disconnect_camera st cid
  | .process cid now hasCompression hasCompressKey comp hasClient gem env =>
      (process_buffer st cid now hasCompression hasCompressKey comp
        hasClient gem env).1

/-- The three per-camera dicts always hold exactly the same key set. -/
def SameKeys (st : CamMaps) : Prop :=
  ∀ k : String,
    (st.camera_connections k).isSome = (st.text_buffers k).isSome ∧
    (st.camera_connections k).isSome = (st.buffer_start_times k).isSome

theorem sameKeys_applyOp (st : CamMaps) (op : CamOp) (h : SameKeys st) :
    SameKeys (applyOp st op) := by
  cases op with
  | connect cid ws now =>
      intro k
      obtain ⟨h1, h2⟩ := h k
      by_cases hk : k = cid <;>
        simp [applyOp, connect_camera, hk, h1, h2, h1.symm.trans h2]
  | disconnect cid =>
      intro k
      obtain ⟨h1, h2⟩ := h k
      by_cases hk : k = cid <;>
        simp [applyOp, disconnect_camera, hk, h1, h2, h1.symm.trans h2]
  | process cid now hasCompression hasCompressKey comp hasClient gem env =>
      intro k
      rcases hb : st.text_buffers cid with _ | b
      · have hfl : flushBuffer st cid now = none := by
          simp [flushBuffer, hb]
        simpa [applyOp, process_buffer, hfl] using h k
      · cases b with
        | nil =>
            have hfl : flushBuffer st cid now = none := by
              simp [flushBuffer, hb]
            simpa [applyOp, process_buffer, hfl] using h k
        | cons f fs =>
            have hfl : flushBuffer st cid now = some (f :: fs,
                { st with
                  text_buffers := fun k =>
                    if k = cid then some [] else st.text_buffers k
                  , buffer_start_times := fun k =>
                    if k = cid then some now else st.buffer_start_times k }) := by
              simp [flushBuffer, hb]
            by_cases hk : k = cid

            · subst hk
              have hc := (h k).1
              rw [hb] at hc
              simp [applyOp, process_buffer, hfl, hc]
            · simpa [applyOp, process_buffer, hfl, hk] using h k

/-- C10: after every sequence of `connect_camera`, `disconnect_camera`
and `process_buffer` operations starting from the empty manager, the
three per-camera maps (`camera_connections`, `text_buffers`,
`buffer_start_times`) have exactly the same key set: a camera id is
present in one of them iff it is present in all three. -/
theorem camera_maps_key_invariant (ops : List CamOp) :
    SameKeys (ops.foldl applyOp CamMaps.init) := by
  have general : ∀ st : CamMaps, SameKeys st →
      SameKeys (ops.foldl applyOp st) := by
    induction ops with
    | nil => intro st h; simpa using h
    | cons op ops ih =>
        intro st h
        simpa [List.foldl_cons] using ih (applyOp st op) (sameKeys_applyOp st op h)
  exact general CamMaps.init (by intro k; simp [CamMaps.init])

end DispatchAI
